import Mathlib

/-!
# Formal model of `simulatore_dati.py` (`ViticultureSimulator`)

Shallow embedding of the vineyard-data simulator:

* a calendar date is a day ordinal `n : Nat`, counting days from 0000-03-01
  (proleptic Gregorian); `yearOf` and `dayofyear` implement the standard
  civil-calendar conversion, matching pandas `DatetimeIndex.year` /
  `.dayofyear`;
* numpy floating-point values are modelled as rationals `ℚ`;
* the process-wide numpy random state is modelled as explicit streams of
  draws (`Draws`), one stream per `np.random.*` call site; per-year draws
  are keyed by the year value (the years iterated over are distinct);
* `np.sin` and `np.pi` are abstracted into an environment `Env`; none of
  the verified properties depend on their values;
* `pandas` missing values (`NaN`) are modelled by `Option`: the rolling
  mean returns `none` when fewer than `min_periods` observations exist,
  and the five annual columns are `Option`-valued, `none` standing for the
  `np.nan` initialisation of `calculate_annual_metrics`.
-/

namespace Viticulture

/-! ## Calendar: civil-from-days, pandas `.year` and `.dayofyear` -/

/-- Gregorian calendar conversion (Hinnant's `civil_from_days`, shifted so
that day `0` is 0000-03-01, which keeps all arithmetic in `Nat`).
Returns `(year, month, day)`. -/
def civilFromDays (n : Nat) : Nat × Nat × Nat :=
  let era := n / 146097
  let doe := n % 146097
  let yoe := (doe - doe / 1460 + doe / 36524 - doe / 146096) / 365
  let y := era * 400 + yoe
  let doy := doe - (365 * yoe + yoe / 4 - yoe / 100)
  let mp := (5 * doy + 2) / 153
  let d := doy - (153 * mp + 2) / 5 + 1
  let m := if mp < 10 then mp + 3 else mp - 9
  (if m ≤ 2 then y + 1 else y, m, d)

/-- Calendar year of a day ordinal (pandas `.year`). -/
def yearOf (n : Nat) : Nat := (civilFromDays n).1

/-- Gregorian leap-year test. -/
def isLeapYear (y : Nat) : Bool := y % 4 == 0 && (y % 100 != 0 || y % 400 == 0)

/-- Days in the months strictly before month `m` (1-based) of a year. -/
def cumulativeDaysBeforeMonth (leap : Bool) (m : Nat) : Nat :=
  (match m with
   | 1 => 0 | 2 => 31 | 3 => 59 | 4 => 90 | 5 => 120 | 6 => 151 | 7 => 181
   | 8 => 212 | 9 => 243 | 10 => 273 | 11 => 304 | _ => 334)
  + (if leap && decide (3 ≤ m) then 1 else 0)

/-- 1-based day of the calendar year (pandas `.dayofyear`). -/
def dayofyear (n : Nat) : Nat :=
  let c := civilFromDays n
  cumulativeDaysBeforeMonth (isLeapYear c.1) c.2.1 + c.2.2

/-! ## Configuration (`ViticultureSimulator.__init__`) -/

/-- Configuration state built by `__init__`: start/end dates (day ordinals,
from `pd.to_datetime`) and the hectare count. The constructor performs no
validation of its arguments. -/
structure ViticultureSimulator where
  start_date : Nat
  end_date : Nat
  total_hectares : ℚ
deriving DecidableEq

/-- `pd.date_range(start, end, freq='D')`: every day from `start_date` to
`end_date` inclusive; empty when `end_date < start_date`. -/
def date_range (sim : ViticultureSimulator) : List Nat :=
  List.range' sim.start_date (sim.end_date + 1 - sim.start_date)

/-- `len(self.date_range)`. -/
def num_days (sim : ViticultureSimulator) : Nat := (date_range sim).length

/-- `self.data.index.year.unique()`: the distinct calendar years of the
index, taken from the date range built in `__init__`. -/
def years (sim : ViticultureSimulator) : List Nat :=
  ((date_range sim).map yearOf).dedup

/-! ## Random draws and math environment -/

/-- One stream of rationals per `np.random.*` call site of the simulator.
Daily streams are indexed by row position, annual streams by year value. -/
structure Draws where
  /-- `np.random.normal(loc=0, scale=3, size=num_days)` (temperature noise). -/
  random_noise : Nat → ℚ
  /-- `np.random.rand(num_days)` (uniform draws for the Bernoulli rain test). -/
  rain_uniform : Nat → ℚ
  /-- `np.random.exponential(scale=7.0, size=num_days)` (rain amount, mean 7.0 mm). -/
  rain_exponential : Nat → ℚ
  /-- `np.random.normal(loc=75, scale=12, size=num_days)` (humidity). -/
  humidity_normal : Nat → ℚ
  /-- `np.random.normal(0, 40, num_days)` (solar-irradiance noise). -/
  irradiance_normal : Nat → ℚ
  /-- per-year `np.random.normal(loc=12000, scale=800)` (`base_yield`). -/
  base_yield : Nat → ℚ
  /-- per-year `np.random.normal(loc=17, scale=0.5)` (`base_sugar`). -/
  base_sugar : Nat → ℚ
  /-- per-year `np.random.normal(loc=10000, scale=1000)` (`base_cost_per_ha`). -/
  base_cost : Nat → ℚ
  /-- per-year `np.random.normal(loc=4.0, scale=0.8)` (`base_price`). -/
  base_price : Nat → ℚ

/-- The transcendental functions used by the generator (`np.sin`, `np.pi`),
abstracted: the verified properties hold for every interpretation. -/
structure Env where
  sin : ℚ → ℚ
  pi : ℚ

/-! ## `generate_ambient_data` -/

/-- Positions covered by the centred 7-day rolling window at position `i`
of a series of length `n`: indices `j < n` with `i - 3 ≤ j ≤ i + 3`. -/
def rollingWindow (n i : Nat) : List Nat :=
  (List.range n).filter fun j => decide (i ≤ j + 3 ∧ j ≤ i + 3)

/-- `pd.Series(x).rolling(window=7, center=True, min_periods=1).mean()` at
position `i`: `none` models pandas `NaN` (fewer than `min_periods`
observations in the window), otherwise the mean of the available values. -/
def rolling_mean (noise : Nat → ℚ) (n i : Nat) : Option ℚ :=
  let w := rollingWindow n i
  if w.length < 1 then none
  else some ((w.map noise).sum / (w.length : ℚ))

/-- `day_of_year` value of row `i` (the index is `start_date + i`). -/
def day_of_year (sim : ViticultureSimulator) (i : Nat) : ℚ :=
  (dayofyear (sim.start_date + i) : ℚ)

/-- `seasonal_temp_effect = 10 * np.sin(2*np.pi*(day_of_year - 110)/365) + 3`. -/
def seasonal_temp_effect (sim : ViticultureSimulator) (env : Env) (i : Nat) : ℚ :=
  10 * env.sin (2 * env.pi * (day_of_year sim i - 110) / 365) + 3

/-- `smoothed_noise`: the rolling mean of the temperature noise. The `getD 0`
default is never used: the window always holds at least the centre position
(proved below), so the rolling mean is `some _` on every row. -/
def smoothed_noise (sim : ViticultureSimulator) (draws : Draws) (i : Nat) : ℚ :=
  (rolling_mean draws.random_noise (num_days sim) i).getD 0

/-- `Temperature_C` before the coupling pass:
`avg_annual_temp (12.0) + seasonal_temp_effect + smoothed_noise`. -/
def temperature_base (sim : ViticultureSimulator) (env : Env) (draws : Draws) (i : Nat) : ℚ :=
  12 + seasonal_temp_effect sim env i + smoothed_noise sim draws i

/-- `rain_prob_seasonal = 0.25 + 0.2 * np.sin(2*np.pi*(day_of_year - 60)/365)`. -/
def rain_prob_seasonal (sim : ViticultureSimulator) (env : Env) (i : Nat) : ℚ :=
  0.25 + 0.2 * env.sin (2 * env.pi * (day_of_year sim i - 60) / 365)

/-- `Precipitation_mm = np.where(is_raining, np.random.exponential(7.0), 0)`
where `is_raining = np.random.rand(num_days) < rain_prob_seasonal`. -/
def precipitation_mm (sim : ViticultureSimulator) (env : Env) (draws : Draws) (i : Nat) : ℚ :=
  if draws.rain_uniform i < rain_prob_seasonal sim env i then draws.rain_exponential i else 0

/-- `Humidity_percent` before the coupling pass:
`np.random.normal(75, 12, num_days).clip(0, 100)`. -/
def humidity_base (draws : Draws) (i : Nat) : ℚ :=
  min (max (draws.humidity_normal i) 0) 100

/-- `Solar_Irradiance_W_m2 = (180 + 150*np.sin(2*np.pi*(day_of_year-80)/365) + normal(0,40)).clip(20)`. -/
def solar_irradiance (sim : ViticultureSimulator) (env : Env) (draws : Draws) (i : Nat) : ℚ :=
  max (180 + 150 * env.sin (2 * env.pi * (day_of_year sim i - 80) / 365)
        + draws.irradiance_normal i) 20

/-- Final `Temperature_C`, after the coupling pass:
`self.data['Temperature_C'] += self.data['Solar_Irradiance_W_m2'] * 0.005`. -/
def temperature_c (sim : ViticultureSimulator) (env : Env) (draws : Draws) (i : Nat) : ℚ :=
  temperature_base sim env draws i + solar_irradiance sim env draws i * 0.005

/-- Final `Humidity_percent`, after the coupling pass:
`self.data['Humidity_percent'] -= self.data['Temperature_C'] * 0.5` (with the
already-updated temperature) followed by `.clip(0, 100)`. -/
def humidity_percent (sim : ViticultureSimulator) (env : Env) (draws : Draws) (i : Nat) : ℚ :=
  min (max (humidity_base draws i - temperature_c sim env draws i * 0.5) 0) 100

/-- The ambient columns of one row of `self.data` after `generate_ambient_data`. -/
structure AmbientRow where
  Temperature_C : ℚ
  Precipitation_mm : ℚ
  Humidity_percent : ℚ
  Solar_Irradiance_W_m2 : ℚ
  Hectares_Simulated : ℚ
deriving DecidableEq

/-- The table `self.data` after `generate_ambient_data`: one `(date, row)`
pair per position of the date range, dates being `start_date + i`. -/
abbrev AmbientTable := List (Nat × AmbientRow)

/-- `generate_ambient_data`: builds every ambient column over the date range. -/
def generate_ambient_data (sim : ViticultureSimulator) (env : Env) (draws : Draws) :
    AmbientTable :=
  (List.range (num_days sim)).map fun i =>
    (sim.start_date + i,
     { Temperature_C := temperature_c sim env draws i,
       Precipitation_mm := precipitation_mm sim env draws i,
       Humidity_percent := humidity_percent sim env draws i,
       Solar_Irradiance_W_m2 := solar_irradiance sim env draws i,
       Hectares_Simulated := sim.total_hectares })

/-! ## `calculate_annual_metrics`

The per-year loop reads only the ambient columns and the index of
`self.data` (which the loop itself never modifies), so the yearly slices
are taken from the ambient table. The five annual columns start as
`np.nan` (here `none`) and each iteration of the loop writes the year's
scalar metrics into every row whose index year matches. -/

/-- `yearly_data = self.data[self.data.index.year == year]` (ambient columns). -/
def yearly_data (tbl : AmbientTable) (y : Nat) : AmbientTable :=
  tbl.filter fun p => decide (yearOf p.1 = y)

/-- `total_days = len(yearly_data)`, as a rational (it divides counts). -/
def total_days (tbl : AmbientTable) (y : Nat) : ℚ :=
  ((yearly_data tbl y).length : ℚ)

/-- `mean_solar_irradiance = yearly_data['Solar_Irradiance_W_m2'].mean()`
(also bound as `mean_solar_irradiance_w` in the sugar computation). -/
def mean_solar_irradiance (tbl : AmbientTable) (y : Nat) : ℚ :=
  ((yearly_data tbl y).map fun p => p.2.Solar_Irradiance_W_m2).sum / total_days tbl y

/-- `solar_effect_annual = (mean_solar_irradiance - 200) * 15`. -/
def solar_effect_annual (tbl : AmbientTable) (y : Nat) : ℚ :=
  (mean_solar_irradiance tbl y - 200) * 15

/-- `mean_temperature_c = yearly_data['Temperature_C'].mean()`. -/
def mean_temperature_c (tbl : AmbientTable) (y : Nat) : ℚ :=
  ((yearly_data tbl y).map fun p => p.2.Temperature_C).sum / total_days tbl y

/-- Days of the year with `Temperature_C > 35` or `Temperature_C < 5`
(the count summed in `extreme_temp_days_ratio`). -/
def extreme_temp_days (tbl : AmbientTable) (y : Nat) : Nat :=
  ((yearly_data tbl y).filter fun p =>
    decide (35 < p.2.Temperature_C ∨ p.2.Temperature_C < 5)).length

/-- `extreme_temp_penalty = extreme_temp_days_ratio * 4000`, the ratio being
the extreme-temperature day count over `total_days`. -/
def extreme_temp_penalty (tbl : AmbientTable) (y : Nat) : ℚ :=
  (extreme_temp_days tbl y : ℚ) / total_days tbl y * 4000

/-- Days with `Temperature_C > 25` and `Humidity_percent > 80` and
`Precipitation_mm > 0` (the count summed in `disease_risk_days_ratio`). -/
def disease_risk_days (tbl : AmbientTable) (y : Nat) : Nat :=
  ((yearly_data tbl y).filter fun p =>
    decide (25 < p.2.Temperature_C ∧ 80 < p.2.Humidity_percent ∧ 0 < p.2.Precipitation_mm)).length

/-- `disease_risk_penalty = disease_risk_days_ratio * 3500`. -/
def disease_risk_penalty (tbl : AmbientTable) (y : Nat) : ℚ :=
  (disease_risk_days tbl y : ℚ) / total_days tbl y * 3500

/-- Days with `Precipitation_mm > 20` (the count summed in
`extreme_precip_days_ratio`). -/
def extreme_precip_days (tbl : AmbientTable) (y : Nat) : Nat :=
  ((yearly_data tbl y).filter fun p => decide (20 < p.2.Precipitation_mm)).length

/-- `extreme_precip_penalty = extreme_precip_days_ratio * 3000`. -/
def extreme_precip_penalty (tbl : AmbientTable) (y : Nat) : ℚ :=
  (extreme_precip_days tbl y : ℚ) / total_days tbl y * 3000

/-- `final_yield = max(min(base_yield + solar_effect_annual - extreme_temp_penalty
- disease_risk_penalty - extreme_precip_penalty, 15000), 8000)`. -/
def final_yield (tbl : AmbientTable) (draws : Draws) (y : Nat) : ℚ :=
  max (min (draws.base_yield y + solar_effect_annual tbl y - extreme_temp_penalty tbl y
            - disease_risk_penalty tbl y - extreme_precip_penalty tbl y) 15000) 8000

/-- `final_sugar_level = max(min(base_sugar + mean_irradiance/200 + mean_temp/20, 19.5), 15)`. -/
def final_sugar_level (tbl : AmbientTable) (draws : Draws) (y : Nat) : ℚ :=
  max (min (draws.base_sugar y + mean_solar_irradiance tbl y / 200
            + mean_temperature_c tbl y / 20) 19.5) 15

/-- `final_production_cost_per_ha = max(base_cost_per_ha, 8000)`. -/
def final_production_cost_per_ha (draws : Draws) (y : Nat) : ℚ :=
  max (draws.base_cost y) 8000

/-- `final_selling_price_per_kg = max(min(base_price + quality_effect, 6.0), 3.5)`
with `quality_effect = (final_sugar_level - 17.5) * 0.5`. -/
def final_selling_price_per_kg (tbl : AmbientTable) (draws : Draws) (y : Nat) : ℚ :=
  max (min (draws.base_price y + (final_sugar_level tbl draws y - 17.5) * 0.5) 6.0) 3.5

/-- `revenue_per_ha = final_yield * final_selling_price_per_kg - final_production_cost_per_ha`. -/
def revenue_per_ha (tbl : AmbientTable) (draws : Draws) (y : Nat) : ℚ :=
  final_yield tbl draws y * final_selling_price_per_kg tbl draws y
    - final_production_cost_per_ha draws y

/-- The five annual columns of one row after `calculate_annual_metrics`. -/
structure Metrics where
  Yield_kg_ha : ℚ
  Grape_Sugar_Level : ℚ
  Production_Cost_EUR_ha : ℚ
  Selling_Price_EUR_kg : ℚ
  Revenue_EUR_ha : ℚ
deriving DecidableEq

/-- The scalar metrics computed for one year of the loop body. -/
def annualMetrics (tbl : AmbientTable) (draws : Draws) (y : Nat) : Metrics :=
  { Yield_kg_ha := final_yield tbl draws y,
    Grape_Sugar_Level := final_sugar_level tbl draws y,
    Production_Cost_EUR_ha := final_production_cost_per_ha draws y,
    Selling_Price_EUR_kg := final_selling_price_per_kg tbl draws y,
    Revenue_EUR_ha := revenue_per_ha tbl draws y }

/-- `self.data` rows after `calculate_annual_metrics` started: ambient
columns plus the five annual columns (`none` = the `np.nan` initialisation). -/
abbrev FullTable := List (Nat × AmbientRow × Option Metrics)

/-- `self.data.loc[self.data.index.year == year, <the five columns>] = <scalars>`:
one loop iteration, writing the year's metrics into every matching row. -/
def broadcastYear (y : Nat) (m : Metrics) (tbl : FullTable) : FullTable :=
  tbl.map fun p => (p.1, p.2.1, if yearOf p.1 = y then some m else p.2.2)

/-- The `np.nan` initialisation of the five annual columns. -/
def initAnnualColumns (tbl : AmbientTable) : FullTable :=
  tbl.map fun p => (p.1, p.2, none)

/-- `calculate_annual_metrics`: initialise the five columns, then loop over
`self.years` writing each year's scalar metrics into that year's rows. -/
def calculate_annual_metrics (sim : ViticultureSimulator) (draws : Draws)
    (tbl : AmbientTable) : FullTable :=
  (years sim).foldl (fun acc y => broadcastYear y (annualMetrics tbl draws y) acc)
    (initAnnualColumns tbl)

/-- `run_simulation`: `generate_ambient_data` then `calculate_annual_metrics`,
returning the full table. -/
def run_simulation (sim : ViticultureSimulator) (env : Env) (draws : Draws) : FullTable :=
  calculate_annual_metrics sim draws (generate_ambient_data sim env draws)

/-! ## Auxiliary definitions and concrete fixtures -/

/-- The cumulative effect of the year loop on the annual columns of a single
row with date `d`, starting from value `v`. -/
def assignFold (ys : List Nat) (f : Nat → Metrics) (d : Nat) (v : Option Metrics) :
    Option Metrics :=
  ys.foldl (fun old y => if yearOf d = y then some (f y) else old) v

/-- All-zero draw streams (concrete fixture for evaluating the model). -/
def zeroDraws : Draws :=
  ⟨fun _ => 0, fun _ => 0, fun _ => 0, fun _ => 0, fun _ => 0,
   fun _ => 0, fun _ => 0, fun _ => 0, fun _ => 0⟩

/-- The all-zero interpretation of `np.sin` / `np.pi` (concrete fixture). -/
def zeroEnv : Env := ⟨fun _ => 0, 0⟩

/-- A fixed ambient row (concrete fixture). -/
def sampleRow : AmbientRow := ⟨15, 0, 50, 180, 600⟩

/-- A two-day ambient table (concrete fixture). -/
def sampleTbl : AmbientTable := [(0, sampleRow), (1, sampleRow)]

/-- A two-day configuration (concrete fixture). -/
def sampleSim : ViticultureSimulator := ⟨0, 1, 600⟩

/-- Draw streams extensionally equal to `zeroDraws` but written differently
(concrete fixture for the determinism theorem). -/
def altDraws : Draws :=
  ⟨fun n => (n : ℚ) * 0, fun _ => 0, fun n => (n : ℚ) * 0, fun _ => 0, fun _ => 0,
   fun _ => 0, fun n => (n : ℚ) * 0, fun _ => 0, fun _ => 0⟩

/-- An environment extensionally equal to `zeroEnv` but written differently
(concrete fixture for the determinism theorem). -/
def altEnv : Env := ⟨fun x => x * 0, 0 + 0⟩

/-! ## Structure of `calculate_annual_metrics` -/

theorem assignFold_eq (ys : List Nat) (f : Nat → Metrics) (d : Nat) (v : Option Metrics) :
    assignFold ys f d v = if yearOf d ∈ ys then some (f (yearOf d)) else v := by
  induction ys generalizing v with
  | nil => simp [assignFold]
  | cons y ys ih =>
      simp only [assignFold, List.foldl_cons] at ih ⊢
      rw [ih]
      by_cases hy : yearOf d = y
      · subst hy
        by_cases hm : yearOf d ∈ ys <;> simp [hm]
      · by_cases hm : yearOf d ∈ ys <;> simp [hm, hy, List.mem_cons]

theorem foldl_broadcastYear (f : Nat → Metrics) (ys : List Nat) (l : FullTable) :
    ys.foldl (fun acc y => broadcastYear y (f y) acc) l
      = l.map fun p => (p.1, p.2.1, assignFold ys f p.1 p.2.2) := by
  induction ys generalizing l with
  | nil => simp [assignFold]
  | cons y ys ih =>
      rw [List.foldl_cons, ih]
      simp only [broadcastYear, List.map_map]
      rfl

/-- The year loop, row by row: each row keeps its date and ambient columns and
receives the metrics of its own calendar year (every index year is in
`self.years`, so in the pipeline no row is left at `NaN`). -/
theorem calculate_annual_metrics_eq (sim : ViticultureSimulator) (draws : Draws)
    (tbl : AmbientTable) :
    calculate_annual_metrics sim draws tbl
      = tbl.map fun p =>
          (p.1, p.2,
           if yearOf p.1 ∈ years sim
           then some (annualMetrics tbl draws (yearOf p.1)) else none) := by
  simp only [calculate_annual_metrics, initAnnualColumns]
  rw [foldl_broadcastYear, List.map_map]
  congr 1
  funext p
  simp [assignFold_eq]

theorem generate_dates (sim : ViticultureSimulator) (env : Env) (draws : Draws) :
    (generate_ambient_data sim env draws).map (fun p => p.1) = date_range sim := by
  simp only [generate_ambient_data, List.map_map]
  have hn : num_days sim = sim.end_date + 1 - sim.start_date := by
    simp [num_days, date_range]
  rw [hn, date_range, List.range'_eq_map_range]
  rfl

theorem run_simulation_dates_eq (sim : ViticultureSimulator) (env : Env) (draws : Draws) :
    (run_simulation sim env draws).map (fun p => p.1) = date_range sim := by
  rw [run_simulation, calculate_annual_metrics_eq, List.map_map]
  exact generate_dates sim env draws

theorem run_simulation_length (sim : ViticultureSimulator) (env : Env) (draws : Draws) :
    (run_simulation sim env draws).length = num_days sim := by
  have h := congrArg List.length (run_simulation_dates_eq sim env draws)
  simpa [num_days] using h

/-- **C1**: with `end_date` not before `start_date`, `run_simulation` yields
exactly one row per calendar day of `[start_date, end_date]`: the row count is
the number of days of the range, the date index is strictly ascending (hence
duplicate-free), and a date appears iff it lies in the range (no gaps). -/
theorem run_simulation_one_row_per_day (sim : ViticultureSimulator) (env : Env) (draws : Draws)
    (h : sim.start_date ≤ sim.end_date) :
    (run_simulation sim env draws).length = sim.end_date - sim.start_date + 1
    ∧ List.Pairwise (· < ·) ((run_simulation sim env draws).map fun p => p.1)
    ∧ ∀ d : Nat,
        (d ∈ (run_simulation sim env draws).map fun p => p.1)
          ↔ sim.start_date ≤ d ∧ d ≤ sim.end_date := by
  refine ⟨?_, ?_, ?_⟩
  · rw [run_simulation_length]
    simp only [num_days, date_range, List.length_range']
    omega
  · rw [run_simulation_dates_eq, date_range]
    exact List.pairwise_lt_range' _ _
  · intro d
    rw [run_simulation_dates_eq, date_range, List.mem_range'_1]
    omega

/-- Witness for C1 at a concrete one-day configuration. -/
theorem run_simulation_one_row_per_day_witness :
    (0 : Nat) ≤ 0
    ∧ ((run_simulation ⟨0, 0, 600⟩ zeroEnv zeroDraws).length = 0 - 0 + 1
       ∧ List.Pairwise (· < ·)
           ((run_simulation ⟨0, 0, 600⟩ zeroEnv zeroDraws).map fun p => p.1)
       ∧ ∀ d : Nat,
           (d ∈ (run_simulation ⟨0, 0, 600⟩ zeroEnv zeroDraws).map fun p => p.1)
             ↔ 0 ≤ d ∧ d ≤ 0) :=
  ⟨Nat.le_refl 0, run_simulation_one_row_per_day ⟨0, 0, 600⟩ zeroEnv zeroDraws (Nat.le_refl 0)⟩

theorem calc_length (sim : ViticultureSimulator) (draws : Draws) (tbl : AmbientTable) :
    (calculate_annual_metrics sim draws tbl).length = tbl.length := by
  rw [calculate_annual_metrics_eq]
  exact List.length_map tbl _

theorem calc_get (sim : ViticultureSimulator) (draws : Draws) (tbl : AmbientTable)
    (i : Nat) (hi : i < (calculate_annual_metrics sim draws tbl).length)
    (hi' : i < tbl.length) :
    (calculate_annual_metrics sim draws tbl).get ⟨i, hi⟩
      = ((tbl.get ⟨i, hi'⟩).1, (tbl.get ⟨i, hi'⟩).2,
         if yearOf (tbl.get ⟨i, hi'⟩).1 ∈ years sim
         then some (annualMetrics tbl draws (yearOf (tbl.get ⟨i, hi'⟩).1)) else none) := by
  simp only [List.get_eq_getElem, calculate_annual_metrics_eq, List.getElem_map]

/-- **C2**: after `calculate_annual_metrics`, any two rows whose dates share a
calendar year carry equal annual columns (hence equal `Yield_kg_ha`,
`Grape_Sugar_Level`, `Production_Cost_EUR_ha`, `Selling_Price_EUR_kg`,
`Revenue_EUR_ha`). -/
theorem annual_fields_constant_within_year (sim : ViticultureSimulator) (draws : Draws)
    (tbl : AmbientTable) (i j : Nat)
    (hi : i < (calculate_annual_metrics sim draws tbl).length)
    (hj : j < (calculate_annual_metrics sim draws tbl).length)
    (hy : yearOf ((calculate_annual_metrics sim draws tbl).get ⟨i, hi⟩).1
        = yearOf ((calculate_annual_metrics sim draws tbl).get ⟨j, hj⟩).1) :
    ((calculate_annual_metrics sim draws tbl).get ⟨i, hi⟩).2.2
      = ((calculate_annual_metrics sim draws tbl).get ⟨j, hj⟩).2.2 := by
  have hli : i < tbl.length := by
    have := calc_length sim draws tbl
    omega
  have hlj : j < tbl.length := by
    have := calc_length sim draws tbl
    omega
  rw [calc_get sim draws tbl i hi hli, calc_get sim draws tbl j hj hlj] at hy ⊢
  simp only at hy ⊢
  rw [hy]

/-- Witness for C2: the two rows of a concrete two-day table, both in year 0. -/
theorem annual_fields_constant_within_year_witness :
    ((calculate_annual_metrics sampleSim zeroDraws sampleTbl).get ⟨0, by decide⟩).2.2
      = ((calculate_annual_metrics sampleSim zeroDraws sampleTbl).get ⟨1, by decide⟩).2.2 :=
  annual_fields_constant_within_year sampleSim zeroDraws sampleTbl 0 1
    (by decide) (by decide) (by decide)

/-- **C9**: `calculate_annual_metrics` writes only the five annual columns:
every row keeps its date and the values of `Temperature_C`,
`Precipitation_mm`, `Humidity_percent`, `Solar_Irradiance_W_m2` and
`Hectares_Simulated` it had before the call. -/
theorem calculate_annual_metrics_frame (sim : ViticultureSimulator) (draws : Draws)
    (tbl : AmbientTable) :
    (calculate_annual_metrics sim draws tbl).length = tbl.length
    ∧ ∀ (i : Nat) (hi : i < (calculate_annual_metrics sim draws tbl).length)
        (hi' : i < tbl.length),
        ((calculate_annual_metrics sim draws tbl).get ⟨i, hi⟩).1 = (tbl.get ⟨i, hi'⟩).1
        ∧ ((calculate_annual_metrics sim draws tbl).get ⟨i, hi⟩).2.1.Temperature_C
            = (tbl.get ⟨i, hi'⟩).2.Temperature_C
        ∧ ((calculate_annual_metrics sim draws tbl).get ⟨i, hi⟩).2.1.Precipitation_mm
            = (tbl.get ⟨i, hi'⟩).2.Precipitation_mm
        ∧ ((calculate_annual_metrics sim draws tbl).get ⟨i, hi⟩).2.1.Humidity_percent
            = (tbl.get ⟨i, hi'⟩).2.Humidity_percent
        ∧ ((calculate_annual_metrics sim draws tbl).get ⟨i, hi⟩).2.1.Solar_Irradiance_W_m2
            = (tbl.get ⟨i, hi'⟩).2.Solar_Irradiance_W_m2
        ∧ ((calculate_annual_metrics sim draws tbl).get ⟨i, hi⟩).2.1.Hectares_Simulated
            = (tbl.get ⟨i, hi'⟩).2.Hectares_Simulated := by
  refine ⟨calc_length sim draws tbl, ?_⟩
  intro i hi hi'
  rw [calc_get sim draws tbl i hi hi']
  exact ⟨rfl, rfl, rfl, rfl, rfl, rfl⟩

/-- Witness for C9 at a concrete two-day table. -/
theorem calculate_annual_metrics_frame_witness :
    (calculate_annual_metrics sampleSim zeroDraws sampleTbl).length = sampleTbl.length
    ∧ ((calculate_annual_metrics sampleSim zeroDraws sampleTbl).get ⟨0, by decide⟩).1
        = (sampleTbl.get ⟨0, by decide⟩).1
    ∧ ((calculate_annual_metrics sampleSim zeroDraws sampleTbl).get ⟨0, by decide⟩).2.1.Temperature_C
        = (sampleTbl.get ⟨0, by decide⟩).2.Temperature_C :=
  ⟨(calculate_annual_metrics_frame sampleSim zeroDraws sampleTbl).1,
   ((calculate_annual_metrics_frame sampleSim zeroDraws sampleTbl).2 0
      (by decide) (by decide)).1,
   ((calculate_annual_metrics_frame sampleSim zeroDraws sampleTbl).2 0
      (by decide) (by decide)).2.1⟩

/-! ## Clamp bounds of the annual metrics -/

theorem final_yield_bounds (tbl : AmbientTable) (draws : Draws) (y : Nat) :
    8000 ≤ final_yield tbl draws y ∧ final_yield tbl draws y ≤ 15000 := by
  unfold final_yield
  exact ⟨le_max_right _ _, max_le (min_le_right _ _) (by norm_num)⟩

theorem final_sugar_level_bounds (tbl : AmbientTable) (draws : Draws) (y : Nat) :
    15 ≤ final_sugar_level tbl draws y ∧ final_sugar_level tbl draws y ≤ 19.5 := by
  unfold final_sugar_level
  exact ⟨le_max_right _ _, max_le (min_le_right _ _) (by norm_num)⟩

theorem final_selling_price_bounds (tbl : AmbientTable) (draws : Draws) (y : Nat) :
    3.5 ≤ final_selling_price_per_kg tbl draws y
    ∧ final_selling_price_per_kg tbl draws y ≤ 6 := by
  unfold final_selling_price_per_kg
  exact ⟨le_max_right _ _, max_le (le_trans (min_le_right _ _) (by norm_num)) (by norm_num)⟩

theorem final_production_cost_lb (draws : Draws) (y : Nat) :
    8000 ≤ final_production_cost_per_ha draws y :=
  le_max_right _ _

/-- Every row of the final table carries the year of its own date, and that
year is listed in `self.years`. -/
theorem run_row_year_mem (sim : ViticultureSimulator) (env : Env) (draws : Draws)
    (i : Nat) (hi : i < (run_simulation sim env draws).length) :
    yearOf ((run_simulation sim env draws).get ⟨i, hi⟩).1 ∈ years sim := by
  have hmem : (run_simulation sim env draws).get ⟨i, hi⟩ ∈ run_simulation sim env draws :=
    List.get_mem _ _ _
  have hdate : ((run_simulation sim env draws).get ⟨i, hi⟩).1
      ∈ (run_simulation sim env draws).map (fun p => p.1) :=
    List.mem_map_of_mem _ hmem
  rw [run_simulation_dates_eq] at hdate
  rw [years]
  exact List.mem_dedup.mpr (List.mem_map_of_mem yearOf hdate)

theorem generate_length (sim : ViticultureSimulator) (env : Env) (draws : Draws) :
    (generate_ambient_data sim env draws).length = num_days sim := by
  simp [generate_ambient_data]

/-- **C3**: after `calculate_annual_metrics`, every row of the final table
holds annual metrics with `Yield_kg_ha ∈ [8000, 15000]`,
`Grape_Sugar_Level ∈ [15, 19.5]`, `Selling_Price_EUR_kg ∈ [3.5, 6]` and
`Production_Cost_EUR_ha ≥ 8000`. -/
theorem annual_fields_clamped (sim : ViticultureSimulator) (env : Env) (draws : Draws)
    (i : Nat) (hi : i < (run_simulation sim env draws).length) :
    ∃ m : Metrics,
      ((run_simulation sim env draws).get ⟨i, hi⟩).2.2 = some m
      ∧ 8000 ≤ m.Yield_kg_ha ∧ m.Yield_kg_ha ≤ 15000
      ∧ 15 ≤ m.Grape_Sugar_Level ∧ m.Grape_Sugar_Level ≤ 19.5
      ∧ 3.5 ≤ m.Selling_Price_EUR_kg ∧ m.Selling_Price_EUR_kg ≤ 6
      ∧ 8000 ≤ m.Production_Cost_EUR_ha := by
  have hmem := run_row_year_mem sim env draws i hi
  have hlen : i < (generate_ambient_data sim env draws).length := by
    have h1 := run_simulation_length sim env draws
    have h2 := generate_length sim env draws
    omega
  have hrow : (run_simulation sim env draws).get ⟨i, hi⟩
      = (((generate_ambient_data sim env draws).get ⟨i, hlen⟩).1,
         ((generate_ambient_data sim env draws).get ⟨i, hlen⟩).2,
         if yearOf ((generate_ambient_data sim env draws).get ⟨i, hlen⟩).1 ∈ years sim
         then some (annualMetrics (generate_ambient_data sim env draws) draws
                     (yearOf ((generate_ambient_data sim env draws).get ⟨i, hlen⟩).1))
         else none) :=
    calc_get sim draws (generate_ambient_data sim env draws) i hi hlen
  rw [hrow] at hmem ⊢
  simp only at hmem ⊢
  refine ⟨annualMetrics (generate_ambient_data sim env draws) draws
            (yearOf ((generate_ambient_data sim env draws).get ⟨i, hlen⟩).1),
          by rw [if_pos hmem],
          (final_yield_bounds _ _ _).1, (final_yield_bounds _ _ _).2,
          (final_sugar_level_bounds _ _ _).1, (final_sugar_level_bounds _ _ _).2,
          (final_selling_price_bounds _ _ _).1, (final_selling_price_bounds _ _ _).2,
          final_production_cost_lb _ _⟩

/-- Witness for C3 at a concrete two-day configuration. -/
theorem annual_fields_clamped_witness :
    0 < (run_simulation sampleSim zeroEnv zeroDraws).length
    ∧ ∃ m : Metrics,
        ((run_simulation sampleSim zeroEnv zeroDraws).get ⟨0, by decide⟩).2.2 = some m
        ∧ 8000 ≤ m.Yield_kg_ha ∧ m.Yield_kg_ha ≤ 15000
        ∧ 15 ≤ m.Grape_Sugar_Level ∧ m.Grape_Sugar_Level ≤ 19.5
        ∧ 3.5 ≤ m.Selling_Price_EUR_kg ∧ m.Selling_Price_EUR_kg ≤ 6
        ∧ 8000 ≤ m.Production_Cost_EUR_ha :=
  ⟨by decide, annual_fields_clamped sampleSim zeroEnv zeroDraws 0 (by decide)⟩

/-- **C10**: for every year, `Revenue_EUR_ha = final_yield * final_price -
final_cost ≤ 15000 * 6 - 8000 = 82000`; there is no lower bound, because the
production cost `max(base_cost, 8000)` is unbounded above. -/
theorem revenue_bounded_above_unbounded_below (tbl : AmbientTable) (draws : Draws) (y : Nat) :
    revenue_per_ha tbl draws y ≤ 82000
    ∧ ∀ B : ℚ, ∃ c : ℚ,
        revenue_per_ha tbl { draws with base_cost := fun _ => c } y < B := by
  constructor
  · have hy := final_yield_bounds tbl draws y
    have hp := final_selling_price_bounds tbl draws y
    have hc := final_production_cost_lb draws y
    have hmul : final_yield tbl draws y * final_selling_price_per_kg tbl draws y
        ≤ 15000 * 6 :=
      mul_le_mul hy.2 hp.2 (le_trans (by norm_num) hp.1) (by norm_num)
    unfold revenue_per_ha
    linarith
  · intro B
    refine ⟨final_yield tbl draws y * final_selling_price_per_kg tbl draws y - B + 1, ?_⟩
    have h := le_max_left
      (final_yield tbl draws y * final_selling_price_per_kg tbl draws y - B + 1) (8000 : ℚ)
    show final_yield tbl draws y * final_selling_price_per_kg tbl draws y
        - max (final_yield tbl draws y * final_selling_price_per_kg tbl draws y - B + 1) 8000
        < B
    linarith

/-! ## Row shape of the generated table -/

theorem generate_get (sim : ViticultureSimulator) (env : Env) (draws : Draws)
    (i : Nat) (hi : i < (generate_ambient_data sim env draws).length) :
    (generate_ambient_data sim env draws).get ⟨i, hi⟩
      = (sim.start_date + i,
         { Temperature_C := temperature_c sim env draws i,
           Precipitation_mm := precipitation_mm sim env draws i,
           Humidity_percent := humidity_percent sim env draws i,
           Solar_Irradiance_W_m2 := solar_irradiance sim env draws i,
           Hectares_Simulated := sim.total_hectares }) := by
  simp only [generate_ambient_data, List.get_eq_getElem, List.getElem_map,
    List.getElem_range]

/-- Every row of the final table, fully explicit: its date, its ambient
columns as produced by `generate_ambient_data`, and the annual metrics of its
calendar year. -/
theorem run_get (sim : ViticultureSimulator) (env : Env) (draws : Draws)
    (i : Nat) (hi : i < (run_simulation sim env draws).length) :
    (run_simulation sim env draws).get ⟨i, hi⟩
      = (sim.start_date + i,
         { Temperature_C := temperature_c sim env draws i,
           Precipitation_mm := precipitation_mm sim env draws i,
           Humidity_percent := humidity_percent sim env draws i,
           Solar_Irradiance_W_m2 := solar_irradiance sim env draws i,
           Hectares_Simulated := sim.total_hectares },
         if yearOf (sim.start_date + i) ∈ years sim
         then some (annualMetrics (generate_ambient_data sim env draws) draws
                     (yearOf (sim.start_date + i)))
         else none) := by
  have hlen : i < (generate_ambient_data sim env draws).length := by
    have h1 := run_simulation_length sim env draws
    have h2 := generate_length sim env draws
    omega
  rw [show (run_simulation sim env draws).get ⟨i, hi⟩
        = (calculate_annual_metrics sim draws (generate_ambient_data sim env draws)).get ⟨i, hi⟩
      from rfl,
    calc_get sim draws (generate_ambient_data sim env draws) i hi hlen,
    generate_get sim env draws i hlen]

/-- **C4 counterexample**: the constructor does not fail fast. With the end
date strictly before the start date the whole pipeline still runs and returns
an empty table (no `InvalidConfiguration` error exists anywhere in the code),
and a negative hectare count is accepted and written into the output. -/
theorem invalid_config_counterexample :
    run_simulation ⟨1, 0, 600⟩ zeroEnv zeroDraws = []
    ∧ (run_simulation ⟨0, 0, -5⟩ zeroEnv zeroDraws).map (fun p => p.2.1.Hectares_Simulated)
        = [-5] :=
  ⟨rfl, by decide⟩

/-- **C4 (amended)**: `__init__` validates nothing: when the end date precedes
the start date the pipeline silently produces an empty table instead of
failing, and any hectare count — non-positive included — is accepted and
propagated unchanged into `Hectares_Simulated` (no default is substituted for
an invalid provided value). -/
theorem init_accepts_invalid_config (sim : ViticultureSimulator) (env : Env) (draws : Draws) :
    (sim.end_date < sim.start_date → run_simulation sim env draws = [])
    ∧ ∀ (i : Nat) (hi : i < (run_simulation sim env draws).length),
        ((run_simulation sim env draws).get ⟨i, hi⟩).2.1.Hectares_Simulated
          = sim.total_hectares := by
  constructor
  · intro h
    have hn : num_days sim = 0 := by
      simp only [num_days, date_range, List.length_range']
      omega
    rw [run_simulation, calculate_annual_metrics_eq, generate_ambient_data, hn]
    rfl
  · intro i hi
    rw [run_get sim env draws i hi]

/-- Witness for C4 (amended) at the two invalid configurations. -/
theorem init_accepts_invalid_config_witness :
    ((⟨1, 0, 600⟩ : ViticultureSimulator).end_date
        < (⟨1, 0, 600⟩ : ViticultureSimulator).start_date
      ∧ run_simulation ⟨1, 0, 600⟩ zeroEnv zeroDraws = [])
    ∧ (0 < (run_simulation ⟨0, 0, -5⟩ zeroEnv zeroDraws).length
      ∧ ((run_simulation ⟨0, 0, -5⟩ zeroEnv zeroDraws).get ⟨0, by decide⟩).2.1.Hectares_Simulated
          = (-5 : ℚ)) :=
  ⟨⟨by decide, (init_accepts_invalid_config ⟨1, 0, 600⟩ zeroEnv zeroDraws).1 (by decide)⟩,
   ⟨by decide, (init_accepts_invalid_config ⟨0, 0, -5⟩ zeroEnv zeroDraws).2 0 (by decide)⟩⟩

/-- **C5**: the coupling pass runs on the already-drawn base variables, in
order: the final temperature is the pre-coupling temperature plus `0.005`
times the solar irradiance; the final humidity is the pre-coupling humidity
minus half of the *updated* temperature, re-clamped to `[0, 100]`; hence
`Humidity_percent ∈ [0, 100]` on every row of the final table. -/
theorem coupling_order_and_humidity_clamped (sim : ViticultureSimulator) (env : Env)
    (draws : Draws) (i : Nat) (hi : i < (run_simulation sim env draws).length) :
    ((run_simulation sim env draws).get ⟨i, hi⟩).2.1.Temperature_C
        = temperature_base sim env draws i + solar_irradiance sim env draws i * 0.005
    ∧ ((run_simulation sim env draws).get ⟨i, hi⟩).2.1.Humidity_percent
        = min (max (humidity_base draws i
            - ((run_simulation sim env draws).get ⟨i, hi⟩).2.1.Temperature_C * 0.5) 0) 100
    ∧ 0 ≤ ((run_simulation sim env draws).get ⟨i, hi⟩).2.1.Humidity_percent
    ∧ ((run_simulation sim env draws).get ⟨i, hi⟩).2.1.Humidity_percent ≤ 100 := by
  rw [run_get sim env draws i hi]
  refine ⟨rfl, rfl, ?_, ?_⟩
  · exact le_min (le_max_right _ _) (by norm_num)
  · exact min_le_right _ _

/-- Witness for C5 at a concrete two-day configuration. -/
theorem coupling_order_and_humidity_clamped_witness :
    0 < (run_simulation sampleSim zeroEnv zeroDraws).length
    ∧ (((run_simulation sampleSim zeroEnv zeroDraws).get ⟨0, by decide⟩).2.1.Temperature_C
        = temperature_base sampleSim zeroEnv zeroDraws 0
          + solar_irradiance sampleSim zeroEnv zeroDraws 0 * 0.005
      ∧ ((run_simulation sampleSim zeroEnv zeroDraws).get ⟨0, by decide⟩).2.1.Humidity_percent
        = min (max (humidity_base zeroDraws 0
            - ((run_simulation sampleSim zeroEnv zeroDraws).get ⟨0, by decide⟩).2.1.Temperature_C
              * 0.5) 0) 100
      ∧ 0 ≤ ((run_simulation sampleSim zeroEnv zeroDraws).get ⟨0, by decide⟩).2.1.Humidity_percent
      ∧ ((run_simulation sampleSim zeroEnv zeroDraws).get ⟨0, by decide⟩).2.1.Humidity_percent
          ≤ 100) :=
  ⟨by decide, coupling_order_and_humidity_clamped sampleSim zeroEnv zeroDraws 0 (by decide)⟩

/-- **C6**: on every row, `Precipitation_mm` is non-negative (given that the
exponential draws are non-negative, as `np.random.exponential`'s are); it is
exactly `0` when the Bernoulli rain test `rand < 0.25 + 0.2*sin(2π(day-60)/365)`
is false, and on raining days it equals the day's draw from the
exponential(mean 7.0 mm) stream. -/
theorem precipitation_zero_inflated (sim : ViticultureSimulator) (env : Env) (draws : Draws)
    (hexp : ∀ j, 0 ≤ draws.rain_exponential j)
    (i : Nat) (hi : i < (run_simulation sim env draws).length) :
    0 ≤ ((run_simulation sim env draws).get ⟨i, hi⟩).2.1.Precipitation_mm
    ∧ (¬ draws.rain_uniform i < rain_prob_seasonal sim env i
        → ((run_simulation sim env draws).get ⟨i, hi⟩).2.1.Precipitation_mm = 0)
    ∧ (draws.rain_uniform i < rain_prob_seasonal sim env i
        → ((run_simulation sim env draws).get ⟨i, hi⟩).2.1.Precipitation_mm
            = draws.rain_exponential i) := by
  rw [run_get sim env draws i hi]
  simp only
  unfold precipitation_mm
  refine ⟨?_, ?_, ?_⟩
  · by_cases h : draws.rain_uniform i < rain_prob_seasonal sim env i
    · rw [if_pos h]
      exact hexp i
    · rw [if_neg h]
  · intro h
    rw [if_neg h]
  · intro h
    rw [if_pos h]

/-- Witness for C6 at a concrete two-day configuration. -/
theorem precipitation_zero_inflated_witness :
    (∀ j, (0 : ℚ) ≤ zeroDraws.rain_exponential j)
    ∧ 0 < (run_simulation sampleSim zeroEnv zeroDraws).length
    ∧ (0 ≤ ((run_simulation sampleSim zeroEnv zeroDraws).get ⟨0, by decide⟩).2.1.Precipitation_mm
      ∧ (¬ zeroDraws.rain_uniform 0 < rain_prob_seasonal sampleSim zeroEnv 0
          → ((run_simulation sampleSim zeroEnv zeroDraws).get ⟨0, by decide⟩).2.1.Precipitation_mm
              = 0)
      ∧ (zeroDraws.rain_uniform 0 < rain_prob_seasonal sampleSim zeroEnv 0
          → ((run_simulation sampleSim zeroEnv zeroDraws).get ⟨0, by decide⟩).2.1.Precipitation_mm
              = zeroDraws.rain_exponential 0)) :=
  ⟨fun _ => le_refl 0, by decide,
   precipitation_zero_inflated sampleSim zeroEnv zeroDraws (fun _ => le_refl 0) 0 (by decide)⟩

/-- **C7**: the pipeline is a deterministic function of the configuration and
of the random streams: two runs with the same configuration and pointwise
identical streams (the situation created by fixing the numpy seed) return
identical tables, every cell equal. -/
theorem run_simulation_deterministic (sim : ViticultureSimulator)
    (env env' : Env) (draws draws' : Draws)
    (hsin : ∀ x, env.sin x = env'.sin x) (hpi : env.pi = env'.pi)
    (hrn : ∀ i, draws.random_noise i = draws'.random_noise i)
    (hru : ∀ i, draws.rain_uniform i = draws'.rain_uniform i)
    (hre : ∀ i, draws.rain_exponential i = draws'.rain_exponential i)
    (hhn : ∀ i, draws.humidity_normal i = draws'.humidity_normal i)
    (hirr : ∀ i, draws.irradiance_normal i = draws'.irradiance_normal i)
    (hby : ∀ y, draws.base_yield y = draws'.base_yield y)
    (hbs : ∀ y, draws.base_sugar y = draws'.base_sugar y)
    (hbc : ∀ y, draws.base_cost y = draws'.base_cost y)
    (hbp : ∀ y, draws.base_price y = draws'.base_price y) :
    run_simulation sim env draws = run_simulation sim env' draws' := by
  have he : env = env' := by
    cases env
    cases env'
    simp only [Env.mk.injEq]
    exact ⟨funext hsin, hpi⟩
  have hd : draws = draws' := by
    cases draws
    cases draws'
    simp only [Draws.mk.injEq]
    exact ⟨funext hrn, funext hru, funext hre, funext hhn, funext hirr,
           funext hby, funext hbs, funext hbc, funext hbp⟩
  rw [he, hd]

/-- Witness for C7: two extensionally equal but syntactically different
environments and draw streams give the same table. -/
theorem run_simulation_deterministic_witness :
    run_simulation sampleSim zeroEnv zeroDraws = run_simulation sampleSim altEnv altDraws :=
  run_simulation_deterministic sampleSim zeroEnv altEnv zeroDraws altDraws
    (fun x => by simp [zeroEnv, altEnv]) (by simp [zeroEnv, altEnv])
    (fun i => by simp [zeroDraws, altDraws]) (fun i => by simp [zeroDraws, altDraws])
    (fun i => by simp [zeroDraws, altDraws]) (fun i => by simp [zeroDraws, altDraws])
    (fun i => by simp [zeroDraws, altDraws]) (fun y => by simp [zeroDraws, altDraws])
    (fun y => by simp [zeroDraws, altDraws]) (fun y => by simp [zeroDraws, altDraws])
    (fun y => by simp [zeroDraws, altDraws])

/-- **C8**: the centred 7-day moving average with `min_periods=1` is defined
(non-`NaN`) at every position of the series, a single-day series included:
the window always holds between 1 and 7 positions (edge windows just shrink),
so the undefined branch is unreachable. -/
theorem rolling_mean_always_defined (noise : Nat → ℚ) (n i : Nat) (h : i < n) :
    (rolling_mean noise n i).isSome = true
    ∧ 1 ≤ (rollingWindow n i).length ∧ (rollingWindow n i).length ≤ 7 := by
  have hmem : i ∈ rollingWindow n i := by
    rw [rollingWindow]
    refine List.mem_filter.mpr ⟨List.mem_range.mpr h, ?_⟩
    simp
  have h1 : 1 ≤ (rollingWindow n i).length := by
    have := List.length_pos.mpr (List.ne_nil_of_mem hmem)
    omega
  refine ⟨?_, h1, ?_⟩
  · simp only [rolling_mean]
    rw [if_neg (by omega)]
    rfl
  · have hnd : (rollingWindow n i).Nodup := (List.nodup_range n).filter _
    have hsub : (rollingWindow n i).toFinset ⊆ Finset.Icc (i - 3) (i + 3) := by
      intro j hj
      rw [List.mem_toFinset] at hj
      rw [rollingWindow, List.mem_filter] at hj
      have hj2 := of_decide_eq_true hj.2
      rw [Finset.mem_Icc]
      omega
    have hcard := Finset.card_le_card hsub
    rw [List.toFinset_card_of_nodup hnd] at hcard
    have hicc : (Finset.Icc (i - 3) (i + 3)).card = i + 3 + 1 - (i - 3) := Nat.card_Icc _ _
    omega

/-- Witness for C8 on a single-day series. -/
theorem rolling_mean_always_defined_witness :
    (0 : Nat) < 1
    ∧ ((rolling_mean (fun _ => (0 : ℚ)) 1 0).isSome = true
      ∧ 1 ≤ (rollingWindow 1 0).length ∧ (rollingWindow 1 0).length ≤ 7) :=
  ⟨by decide, rolling_mean_always_defined (fun _ => (0 : ℚ)) 1 0 (by decide)⟩

end Viticulture
